import Mathlib

/-
  Verification development for the multiCam network controller
  (pythonController/testNetworkCommands.py).

  The embedding is shallow: the protocol-client functions of the source are
  translated into executable Lean definitions.  Machine floats of the source
  are modelled as exact rationals, the TCP socket is modelled by an explicit
  environment describing what each recv call returns, and the json library
  (an external collaborator of the repository) is modelled by an abstract
  decode function passed as an argument.
-/

namespace MultiCam

/-- The five command kinds accepted by the devices (source lines 96-135,
625). -/
inductive Command where
  | START_RECORDING
  | STOP_RECORDING
  | DEVICE_STATUS
  | LIST_FILES
  | GET_VIDEO
deriving DecidableEq, Repr

/-- JSON values, the shape of decoded device responses. -/
inductive Json where
  | null : Json
  | bool : Bool → Json
  | num : ℚ → Json
  | str : String → Json
  | arr : List Json → Json
  | obj : List (String × Json) → Json

/-- Python truthiness of a JSON value, used by the source in conditions such
as line 129 (response_json["fileId"]). -/
def Json.truthy : Json → Bool
  | .null => false
  | .bool b => b
  | .num q => decide (q ≠ 0)
  | .str s => decide (s ≠ "")
  | .arr xs => !xs.isEmpty
  | .obj fs => !fs.isEmpty

/-- Dictionary lookup on a JSON value.  For a non-dict value the source
membership test of line 129 would behave differently per type (and can
raise); the claims only exercise dict responses, so non-dicts yield none. -/
def Json.get : Json → String → Option Json
  | .obj fs, k => fs.lookup k
  | _, _ => none

/-- Reads a JSON number as a byte count, as the download loop of the source
uses it (lines 169, 188-189).  A negative integer clamps to 0, reproducing
the immediate exit of the Python while loop; a non-integer number is
rejected, reproducing the TypeError the Python recv call would raise. -/
def Json.asNat : Json → Option Nat
  | .num q => if q.den = 1 then some q.num.toNat else none
  | _ => none

/-- A discovered device: address and port (source lines 41-45). -/
structure Device where
  ip : String
  port : Nat
deriving DecidableEq, Repr

/-- The encoded request of source lines 69-79: a JSON object with command,
timestamp, deviceId and an optional fileId field. -/
structure Message where
  command : Command
  timestamp : ℚ
  deviceId : String
  fileId : Option String
deriving DecidableEq, Repr

/-- Builds the request message of source lines 69-76.  The expression
timestamp or time.time() falls back to the current time when the argument
is None or the falsy number 0; if file_id: adds the field only for a
non-empty string. -/
def buildMessage (command : Command) (timestamp : Option ℚ)
    (fileId : Option String) (now : ℚ) : Message :=
  { command := command
    timestamp :=
      match timestamp with
      | some t => if t = 0 then now else t
      | none => now
    deviceId := "controller"
    fileId :=
      match fileId with
      | some s => if s = "" then none else some s
      | none => none }

/-- One observable outcome of a sock.recv call: a chunk of bytes (an empty
chunk meaning the peer closed), a socket.timeout, or another socket error
(which the source only catches at the outer except of line 140). -/
inductive RecvEvt where
  | data (bytes : List Nat)
  | tout
  | err
deriving DecidableEq, Repr

/-- The single recv of source line 121 (non LIST_FILES control commands):
the next chunk if one arrives, none when the 30s timeout or a socket error
raises instead (an exhausted script is read as a timeout). -/
def recv1 : List RecvEvt → Option (List Nat)
  | .data b :: _ => some b
  | _ => none

/-- The chunked receive loop of source lines 105-119 (LIST_FILES): keep
accumulating chunks until the accumulated bytes parse as JSON, the peer
closes, or a socket.timeout fires; a socket error escapes (none).  An
exhausted script is read as the idle timeout firing. -/
def recvLoop (loads : List Nat → Option Json) :
    List RecvEvt → List Nat → Option (List Nat)
  | [], acc => some acc
  | .tout :: _, acc => some acc
  | .err :: _, acc => none
  | .data c :: rest, acc =>
    if c = [] then some acc
    else if (loads (acc ++ c)).isSome then some (acc ++ c)
    else recvLoop loads rest (acc ++ c)

/-- The bytes accumulated for a non-file command (source lines 99-121):
LIST_FILES uses the chunked loop, every other control command a single
recv. -/
def ctlRecv (command : Command) (loads : List Nat → Option Json)
    (evts : List RecvEvt) : Option (List Nat) :=
  if command = .LIST_FILES then recvLoop loads evts [] else recv1 evts

/-- Network behaviour of one device link: whether connect and send succeed,
the recv outcomes seen by the control-command path, the contiguous byte
stream seen by the file-download path, and the local clock of the thread
running the link. -/
structure LinkEnv where
  connectOk : Bool
  sendOk : Bool
  recvEvts : List RecvEvt
  stream : List Nat
  now : ℚ
deriving Repr

/-- struct.unpack of a big-endian unsigned 32-bit header length (source
line 155). -/
def beU32 (b : List Nat) : Nat :=
  b.foldl (fun acc x => acc * 256 + x % 256) 0

/-- The payload loop of source lines 187-198: while fewer than fileSize
bytes are received, recv up to min(8192, remaining) bytes, stop on an empty
chunk, append each chunk to the file.  recv is modelled as delivering all
requested bytes still present in the stream.  Returns the written bytes and
the count received. -/
def downloadLoop (fileSize : Nat) (stream : List Nat) (received : Nat)
    (acc : List Nat) : List Nat × Nat :=
  if h : received < fileSize then
    let chunkSize := min 8192 (fileSize - received)
    let chunk := stream.take chunkSize
    if hc : chunk = [] then (acc, received)
    else downloadLoop fileSize (stream.drop chunkSize)
      (received + chunk.length) (acc ++ chunk)
  else (acc, received)
termination_by stream.length
decreasing_by
  have hs : stream ≠ [] := by
    intro hnil
    exact hc (by simp [hnil, chunk])
  have h1 : 0 < stream.length := List.length_pos.mpr hs
  have hcs : 0 < 8192 ⊓ (fileSize - received) :=
    lt_min (by norm_num) (by omega)
  rw [List.length_drop]
  omega

/-- A Python value returned by send_command: True, False, a string, or a
decoded JSON object (a JSON string decodes to a Python str, so it is
represented by the string case). -/
inductive PyVal where
  | pyTrue
  | pyFalse
  | pyStr (s : String)
  | pyJson (j : Json)

/-- Converts a returned JSON value to the Python value the caller sees:
a JSON string is a Python str, everything else stays a JSON object. -/
def pyOfJson : Json → PyVal
  | .str s => .pyStr s
  | j => .pyJson j

/-- isinstance(result, str) of source line 248. -/
def PyVal.isStr : PyVal → Bool
  | .pyStr _ => true
  | _ => false

/-- The local save path of source lines 175-181: the fixed downloads
directory, the device ip with dots replaced by underscores, and the
server-reported file name.  The single-character replace of the source is
modelled as a character map. -/
def localPath (deviceIp fileName : String) : String :=
  "~/Downloads/multiCam/"
    ++ ⟨deviceIp.data.map fun c => if c = '.' then '_' else c⟩
    ++ "_" ++ fileName

/-- Outcome of the file-download handler: the returned Python value,
whether the socket was closed, and the saved file (path and bytes) if one
was written. -/
structure FileOutcome where
  result : PyVal
  closed : Bool
  savedFile : Option (String × List Nat)

/-- _handle_file_download of source lines 144-207.  Reads 4 bytes of header
length (returning False without closing if fewer arrive, line 153), then
the header bytes, parses them (a parse error or missing field raises and is
caught at line 204, which closes), then runs the payload loop and returns
the local path, closing the socket - the source reports success even when
the loop stopped short of fileSize bytes. -/
def handleFileDownload (loads : List Nat → Option Json) (deviceIp : String)
    (stream : List Nat) : FileOutcome :=
  let headerSizeData := stream.take 4
  if headerSizeData.length ≠ 4 then
    { result := .pyFalse, closed := false, savedFile := none }
  else
    let headerSize := beU32 headerSizeData
    let afterLen := stream.drop 4
    let headerData := afterLen.take headerSize
    match loads headerData with
    | none => { result := .pyFalse, closed := true, savedFile := none }
    | some info =>
      match info.get "fileName", (info.get "fileSize").bind Json.asNat with
      | some (Json.str fileName), some fileSize =>
        let path := localPath deviceIp fileName
        let payload := afterLen.drop headerSize
        let fileBytes := (downloadLoop fileSize payload 0 []).1
        { result := .pyStr path, closed := true,
          savedFile := some (path, fileBytes) }
      | _, _ => { result := .pyFalse, closed := true, savedFile := none }

/-- The body of send_command after the message is built (source lines
82-142): connect and send (any failure is caught at line 140 and returns
False without closing), then either the file-download handler or the
control-response path.  On a non-empty response the JSON is decoded (a
decode error returns False without closing); a STOP_RECORDING response
with a truthy fileId is unwrapped to that value; otherwise the decoded
response is returned - both returns leave the socket open.  Only an empty
response reaches the close of line 137 and returns True. -/
def sendCommandCore (deviceIp : String) (command : Command)
    (env : LinkEnv) (loads : List Nat → Option Json) :
    PyVal × Bool × Option (String × List Nat) :=
  if env.connectOk && env.sendOk then
    if command = .GET_VIDEO then
      let f := handleFileDownload loads deviceIp env.stream
      (f.result, f.closed, f.savedFile)
    else
      match ctlRecv command loads env.recvEvts with
      | none => (.pyFalse, false, none)
      | some data =>
        if data ≠ [] then
          match loads data with
          | none => (.pyFalse, false, none)
          | some j =>
            match (if command = .STOP_RECORDING then j.get "fileId" else none) with
            | some v =>
              if v.truthy then (pyOfJson v, false, none)
              else (pyOfJson j, false, none)
            | none => (pyOfJson j, false, none)
        else (.pyTrue, true, none)
  else (.pyFalse, false, none)

/-- Full outcome of one send_command call: the request message it encoded,
the returned Python value, whether its socket was closed, and any saved
file. -/
structure LinkOutcome where
  msg : Message
  result : PyVal
  closed : Bool
  savedFile : Option (String × List Nat)

/-- send_command of source lines 65-142: builds the request message, then
runs the connection body. -/
def sendCommand (deviceIp : String) (devicePort : Nat) (command : Command)
    (timestamp : Option ℚ) (fileId : Option String) (env : LinkEnv)
    (loads : List Nat → Option Json) : LinkOutcome :=
  let msg := buildMessage command timestamp fileId env.now
  let rcf := sendCommandCore deviceIp command env loads
  { msg := msg, result := rcf.1, closed := rcf.2.1, savedFile := rcf.2.2 }

/-- The default sync_delay argument of send_command_to_all (source line
209). -/
def defaultSyncDelay : ℚ := 3

/-- The shared timestamp of source lines 215-221: for START_RECORDING with
no explicit timestamp, now plus the sync delay; otherwise the caller value
(falling back to now when it is None or the falsy 0). -/
def syncTimestamp (command : Command) (timestamp : Option ℚ)
    (syncDelay now : ℚ) : ℚ :=
  if command = .START_RECORDING ∧ timestamp = none then now + syncDelay
  else
    match timestamp with
    | some t => if t = 0 then now else t
    | none => now

/-- The fan-out of source lines 226-243: one send_command call per device,
every call receiving the one shared timestamp; all threads are joined, so
the aggregate holds every outcome.  Thread interleaving only affects
insertion order, which the claims do not observe, so the fan-out is
modelled as a map in registry order. -/
def dispatchAll (devices : List (String × Device)) (command : Command)
    (timestamp : Option ℚ) (syncDelay now : ℚ) (envs : String → LinkEnv)
    (loads : List Nat → Option Json) : List (String × LinkOutcome) :=
  let st := syncTimestamp command timestamp syncDelay now
  devices.map fun nd =>
    (nd.1, sendCommand nd.2.ip nd.2.port command (some st) none (envs nd.1) loads)

/-- send_command_to_all of source lines 209-257: None when no devices are
known; otherwise the per-device results - except that for STOP_RECORDING
the source returns only the entries whose result is a string (line 248),
dropping every other device from the returned mapping. -/
def sendCommandToAll (devices : List (String × Device)) (command : Command)
    (timestamp : Option ℚ) (syncDelay now : ℚ) (envs : String → LinkEnv)
    (loads : List Nat → Option Json) : Option (List (String × PyVal)) :=
  if devices = [] then none
  else
    let results :=
      (dispatchAll devices command timestamp syncDelay now envs loads).map
        fun p => (p.1, p.2.result)
    if command = .STOP_RECORDING then
      some (results.filter fun p => p.2.isStr)
    else some results

/-- Per-device probe outcome of source lines 456-481: a success with the
device timestamp, round-trip milliseconds and clock-diff milliseconds, a
failed probe (no dict response with a timestamp, line 478), or an error
(an exception while processing, line 481). -/
inductive ProbeRecord where
  | success (deviceTime rtMs diffMs : ℚ)
  | failed
  | error
deriving DecidableEq, Repr

/-- The per-device computation of source lines 459-476: given the value
send_command returned, the local send time and the local receive time,
require a dict response carrying a timestamp, then estimate the device
clock as td plus half the round trip and report the difference to the
local receive time, both in milliseconds.  A JSON boolean timestamp
behaves as the number 0 or 1, as Python arithmetic treats it; any other
non-numeric timestamp raises in the arithmetic and is caught at line 480
as an error record. -/
def probeDevice (response : PyVal) (sendTime receiveTime : ℚ) : ProbeRecord :=
  match response with
  | .pyJson (.obj fs) =>
    match fs.lookup "timestamp" with
    | some (.num td) =>
      let rtt := receiveTime - sendTime
      let est := td + rtt / 2
      .success td (rtt * 1000) ((est - receiveTime) * 1000)
    | some (.bool b) =>
      let td : ℚ := if b then 1 else 0
      let rtt := receiveTime - sendTime
      let est := td + rtt / 2
      .success td (rtt * 1000) ((est - receiveTime) * 1000)
    | some _ => .error
    | none => .failed
  | _ => .failed

/-- One step of the aggregation of source lines 496-509: a success record
updates the maximum and minimum absolute diff and the count of valid
devices, every other record leaves the state unchanged. -/
def statsStep : ℚ × ℚ × Nat → ProbeRecord → ℚ × ℚ × Nat
  | (mx, mn, v), .success _ _ d =>
    (max mx |d|, if v = 0 then |d| else min mn |d|, v + 1)
  | s, _ => s

/-- The max-diff, min-diff and valid-device count of source lines 488-509,
starting from (0, 0, 0). -/
def foldStats (rs : List ProbeRecord) : ℚ × ℚ × Nat :=
  rs.foldl statsStep (0, 0, 0)

/-- The fleet classification of source lines 518-533, named by the labels
the printed report carries: with at least 2 valid devices, good when the
maximum absolute diff is below 50, moderate when below 200, else poor;
with exactly 1 valid device, insufficient data; with none, no response. -/
def classify (rs : List ProbeRecord) : String :=
  if 2 ≤ (foldStats rs).2.2 then
    if (foldStats rs).1 < 50 then "good"
    else if (foldStats rs).1 < 200 then "moderate"
    else "poor"
  else if (foldStats rs).2.2 = 1 then "insufficient data"
  else "no response"

/-- check_clock_synchronization of source lines 443-533, given for each
device the value send_command returned together with the local send and
receive times: the per-device records and the fleet classification. -/
def checkClockSynchronization
    (probes : List (String × PyVal × ℚ × ℚ)) :
    List (String × ProbeRecord) × String :=
  let results := probes.map fun p => (p.1, probeDevice p.2.1 p.2.2.1 p.2.2.2)
  (results, classify (results.map Prod.snd))

/-- Number of successfully probed devices in a record list. -/
def succCount (rs : List ProbeRecord) : Nat :=
  rs.countP fun r => match r with | .success _ _ _ => true | _ => false

/-- Maximum absolute clock diff over the successfully probed devices,
starting from 0. -/
def maxAbsDiff (rs : List ProbeRecord) : ℚ :=
  rs.foldl (fun m r => match r with | .success _ _ d => max m |d| | _ => m) 0

/-- The classification exactly as claim C8 words it: good below 50, the
50 to 200 band moderate (200 included, since poor is reserved for diffs
strictly above 200), poor above 200. -/
def classifyClaimC8 (rs : List ProbeRecord) : String :=
  if 2 ≤ succCount rs then
    if maxAbsDiff rs < 50 then "good"
    else if maxAbsDiff rs ≤ 200 then "moderate"
    else "poor"
  else if succCount rs = 1 then "insufficient data"
  else "no response"

/-- The classification as the code actually bands it: good below 50,
moderate on the half-open band from 50 up to but excluding 200, poor from
200 upward. -/
def classifySpecAmended (rs : List ProbeRecord) : String :=
  if 2 ≤ succCount rs then
    if maxAbsDiff rs < 50 then "good"
    else if maxAbsDiff rs < 200 then "moderate"
    else "poor"
  else if succCount rs = 1 then "insufficient data"
  else "no response"

/-! Concrete fixtures used by the counterexamples and witnesses. -/

/-- A device at 10.0.0.1. -/
def dev1 : Device := ⟨"10.0.0.1", 8080⟩

/-- A device at 10.0.0.2. -/
def dev2 : Device := ⟨"10.0.0.2", 8080⟩

/-- A device at 10.0.0.3. -/
def dev3 : Device := ⟨"10.0.0.3", 8080⟩

/-- A link whose TCP connect fails (connection refused). -/
def envFail : LinkEnv :=
  { connectOk := false, sendOk := true, recvEvts := [], stream := [], now := 50 }

/-- A decode function under which no byte string parses as JSON. -/
def loadsNone : List Nat → Option Json := fun _ => none

/-- Claim C1.  The claim states that one broadcast returns a mapping with
exactly one entry per targeted device for every command kind including
STOP_RECORDING.  Counterexample: a STOP_RECORDING broadcast to one device
whose link fails returns an empty mapping, because the source keeps only
string-valued results for STOP_RECORDING (line 248), while one device was
targeted. -/
theorem C1_counterexample :
    sendCommandToAll [("cam1", dev1)] .STOP_RECORDING none 3 100
        (fun _ => envFail) loadsNone = some [] ∧
      ([("cam1", dev1)] : List (String × Device)).length = 1 :=
  ⟨rfl, rfl⟩

/-- Claim C1 (amended).  For every non-empty device list and every command
kind other than STOP_RECORDING, one broadcast returns a mapping with
exactly one entry per targeted device, in device order, whether each link
succeeded or failed. -/
theorem C1_amended (devices : List (String × Device)) (command : Command)
    (timestamp : Option ℚ) (syncDelay now : ℚ) (envs : String → LinkEnv)
    (loads : List Nat → Option Json) (hne : devices ≠ [])
    (hcmd : command ≠ .STOP_RECORDING) :
    ∃ rs, sendCommandToAll devices command timestamp syncDelay now envs loads
        = some rs ∧
      rs.length = devices.length ∧ rs.map Prod.fst = devices.map Prod.fst := by
  refine ⟨(dispatchAll devices command timestamp syncDelay now envs loads).map
    (fun p => (p.1, p.2.result)), ?_, ?_, ?_⟩
  · simp [sendCommandToAll, hne, hcmd]
  · simp [dispatchAll]
  · simp [dispatchAll, List.map_map]

/-- Witness for C1 (amended) at a concrete one-device DEVICE_STATUS
broadcast with a failing link. -/
theorem C1_amended_witness :
    ∃ rs, sendCommandToAll [("cam1", dev1)] .DEVICE_STATUS none 3 100
        (fun _ => envFail) loadsNone = some rs ∧
      rs.length = ([("cam1", dev1)] : List (String × Device)).length ∧
      rs.map Prod.fst
        = ([("cam1", dev1)] : List (String × Device)).map Prod.fst :=
  C1_amended _ _ _ _ _ _ _ (by decide) (by decide)

/-- Claim C2.  For a START_RECORDING broadcast with no caller timestamp,
one shared future timestamp now + syncDelay is computed once before
fan-out, and the request message encoded for every targeted device carries
exactly that value, whatever each link thread reads as its own local
clock.  The hypothesis excludes the degenerate clock making the shared
value the falsy 0, in which case the source expression timestamp or
time.time() would fall back per device. -/
theorem C2_shared_timestamp (devices : List (String × Device))
    (syncDelay now : ℚ) (envs : String → LinkEnv)
    (loads : List Nat → Option Json) (h : now + syncDelay ≠ 0) :
    (dispatchAll devices .START_RECORDING none syncDelay now envs loads).map
        (fun p => p.2.msg.timestamp)
      = devices.map fun _ => now + syncDelay := by
  simp only [dispatchAll, syncTimestamp, List.map_map]
  refine List.map_congr_left fun nd _ => ?_
  simp [sendCommand, buildMessage, h]

/-- Witness for C2 at a concrete two-device broadcast whose link threads
hold different local clocks. -/
theorem C2_shared_timestamp_witness :
    (dispatchAll [("a", dev1), ("b", dev2)] .START_RECORDING none
        defaultSyncDelay 100
        (fun n => if n = "a"
          then { connectOk := true, sendOk := true, recvEvts := [],
                 stream := [], now := 7 }
          else { connectOk := true, sendOk := true, recvEvts := [],
                 stream := [], now := 9 })
        loadsNone).map (fun p => p.2.msg.timestamp)
      = ([("a", dev1), ("b", dev2)] : List (String × Device)).map
          fun _ => 100 + defaultSyncDelay :=
  C2_shared_timestamp _ _ _ _ _ (by norm_num [defaultSyncDelay])

/-- The payload loop writes exactly the first fileSize - received bytes
still present in the stream: the whole remainder when the stream is
shorter, so a short stream still completes the loop. -/
theorem downloadLoop_take (fileSize : Nat) :
    ∀ (n : Nat) (stream : List Nat) (received : Nat) (acc : List Nat),
      stream.length ≤ n → received ≤ fileSize →
      (downloadLoop fileSize stream received acc).1
        = acc ++ stream.take (fileSize - received) := by
  intro n
  induction n with
  | zero =>
    intro stream received acc hlen hrec
    have hstream : stream = [] := List.length_eq_zero.mp (Nat.le_zero.mp hlen)
    subst hstream
    rw [downloadLoop]
    by_cases h : received < fileSize
    · simp [h]
    · simp [h]
  | succ n ih =>
    intro stream received acc hlen hrec
    rw [downloadLoop]
    by_cases h : received < fileSize
    · rw [dif_pos h]
      by_cases hc : stream.take (min 8192 (fileSize - received)) = []
      · rw [dif_pos hc]
        have hc1 : 0 < min 8192 (fileSize - received) :=
          lt_min (by norm_num) (by omega)
        have hstream : stream = [] := by
          rcases List.take_eq_nil_iff.mp hc with h0 | h0
          · omega
          · exact h0
        subst hstream
        simp
      · rw [dif_neg hc]
        have hmr : min 8192 (fileSize - received) ≤ fileSize - received :=
          min_le_right _ _
        have htl : (stream.take (min 8192 (fileSize - received))).length
            = min (min 8192 (fileSize - received)) stream.length :=
          List.length_take _ _
        have hstream : stream ≠ [] := by
          intro h0
          exact hc (by simp [h0])
        have hsl : 0 < stream.length := List.length_pos.mpr hstream
        have hc1 : 0 < min 8192 (fileSize - received) :=
          lt_min (by norm_num) (by omega)
        have hlen2 : (stream.drop (min 8192 (fileSize - received))).length ≤ n := by
          rw [List.length_drop]
          omega
        have hrec2 : received + (stream.take (min 8192 (fileSize - received))).length
            ≤ fileSize := by
          rw [htl]
          omega
        rw [ih _ _ _ hlen2 hrec2, List.append_assoc]
        congr 1
        by_cases hfit : stream.length ≤ min 8192 (fileSize - received)
        · have h1 : stream.take (min 8192 (fileSize - received)) = stream :=
            List.take_of_length_le hfit
          have h2 : stream.drop (min 8192 (fileSize - received)) = [] :=
            List.drop_eq_nil_of_le hfit
          rw [h1, h2]
          have h3 : stream.length ≤ fileSize - received := by omega
          simp [List.take_of_length_le h3]
        · have hlc : min 8192 (fileSize - received) ≤ stream.length := by omega
          have h1 : (stream.take (min 8192 (fileSize - received))).length
              = min 8192 (fileSize - received) := by
            rw [htl]
            omega
          rw [h1]
          have harg : fileSize - (received + min 8192 (fileSize - received))
              = fileSize - received - min 8192 (fileSize - received) := by
            omega
          rw [harg,
            ← List.take_add stream (min 8192 (fileSize - received))
              (fileSize - received - min 8192 (fileSize - received))]
          congr 1
          omega
    · rw [dif_neg h]
      have h0 : fileSize - received = 0 := by omega
      simp [h0]

/-- Claim C3 (amended).  For a GET_VIDEO transfer whose header parses and
declares fileSize N, the handler returns the local save path and writes
min(N, available) payload bytes: when exactly N bytes arrive the saved
file has length N, and when the stream closes short the call still
returns the path as a success, saving only the received bytes - the
source has no TruncatedPayload failure (lines 187-202). -/
theorem C3_amended (ip : String) (port : Nat) (timestamp : Option ℚ)
    (fileId : Option String) (env : LinkEnv)
    (loads : List Nat → Option Json) (hdr : Json) (fileName : String)
    (fileSize : Nat) (hc : env.connectOk = true) (hs : env.sendOk = true)
    (h4 : 4 ≤ env.stream.length)
    (hl : loads ((env.stream.drop 4).take (beU32 (env.stream.take 4)))
      = some hdr)
    (hn : hdr.get "fileName" = some (.str fileName))
    (hsz : hdr.get "fileSize" = some (.num (fileSize : ℚ))) :
    (sendCommand ip port .GET_VIDEO timestamp fileId env loads).result
        = .pyStr (localPath ip fileName) ∧
      (sendCommand ip port .GET_VIDEO timestamp fileId env loads).savedFile
        = some (localPath ip fileName,
            ((env.stream.drop 4).drop (beU32 (env.stream.take 4))).take fileSize) ∧
      (((env.stream.drop 4).drop (beU32 (env.stream.take 4))).take fileSize).length
        = min fileSize ((env.stream.drop 4).drop (beU32 (env.stream.take 4))).length := by
  have ht4 : (env.stream.take 4).length = 4 := by
    rw [List.length_take]
    omega
  have hdl := downloadLoop_take fileSize
    ((env.stream.drop 4).drop (beU32 (env.stream.take 4))).length
    ((env.stream.drop 4).drop (beU32 (env.stream.take 4))) 0 []
    le_rfl (Nat.zero_le _)
  simp only [Nat.sub_zero, List.nil_append, List.drop_drop] at hdl
  refine ⟨?_, ?_, List.length_take _ _⟩ <;>
    simp [sendCommand, sendCommandCore, handleFileDownload, ht4, hl, hn, hsz,
      Json.asNat, hc, hs, hdl]

/-- The file-transfer header used by the concrete transfer fixtures:
clip.mp4 of declared size 4 bytes. -/
def hdrJson : Json := .obj [("fileName", .str "clip.mp4"), ("fileSize", .num 4)]

/-- A decode function parsing the single header byte 1 to the fixture
header. -/
def loadsHdr : List Nat → Option Json :=
  fun b => if b = [1] then some hdrJson else none

/-- A link whose stream carries the 4-byte header length 1, the 1 header
byte, and only 3 of the 4 declared payload bytes before close. -/
def envTrunc : LinkEnv :=
  { connectOk := true, sendOk := true, recvEvts := [],
    stream := [0, 0, 0, 1, 1, 9, 9, 9], now := 50 }

/-- Claim C3.  The claim states that a stream closing before the declared
fileSize bytes arrive makes the operation fail with TruncatedPayload.
Counterexample: with fileSize 4 declared and only 3 payload bytes before
close, send_command returns the local path as a success and saves a 3-byte
file - no failure value is produced. -/
theorem C3_counterexample :
    (sendCommand "10.0.0.1" 8080 .GET_VIDEO none none envTrunc loadsHdr).result
        = .pyStr (localPath "10.0.0.1" "clip.mp4") ∧
      (sendCommand "10.0.0.1" 8080 .GET_VIDEO none none envTrunc loadsHdr).savedFile
        = some (localPath "10.0.0.1" "clip.mp4", [9, 9, 9]) ∧
      localPath "10.0.0.1" "clip.mp4" = "~/Downloads/multiCam/10_0_0_1_clip.mp4" ∧
      ([9, 9, 9] : List Nat).length ≠ 4 := by
  have hdl := downloadLoop_take 4 3 [9, 9, 9] 0 [] (by norm_num) (Nat.zero_le _)
  refine ⟨?_, ?_, by decide, by decide⟩ <;>
    simp_all [sendCommand, sendCommandCore, handleFileDownload, hdrJson,
      loadsHdr, envTrunc, beU32, Json.asNat, Json.get, List.lookup, localPath]

/-- A link identical to the truncated one but delivering all 4 declared
payload bytes. -/
def envExact : LinkEnv :=
  { connectOk := true, sendOk := true, recvEvts := [],
    stream := [0, 0, 0, 1, 1, 9, 9, 9, 7], now := 50 }

/-- Witness for C3 (amended) at the exact-length transfer: all 4 declared
bytes arrive and the saved file has length 4. -/
theorem C3_amended_witness :
    (sendCommand "10.0.0.1" 8080 .GET_VIDEO none none envExact loadsHdr).result
        = .pyStr (localPath "10.0.0.1" "clip.mp4") ∧
      (sendCommand "10.0.0.1" 8080 .GET_VIDEO none none envExact loadsHdr).savedFile
        = some (localPath "10.0.0.1" "clip.mp4",
            ((envExact.stream.drop 4).drop (beU32 (envExact.stream.take 4))).take 4) ∧
      (((envExact.stream.drop 4).drop (beU32 (envExact.stream.take 4))).take 4).length
        = min 4 ((envExact.stream.drop 4).drop (beU32 (envExact.stream.take 4))).length :=
  C3_amended "10.0.0.1" 8080 none none envExact loadsHdr hdrJson "clip.mp4" 4
    rfl rfl (by decide) rfl rfl rfl

/-- A link whose peer closes the connection without sending any byte. -/
def env4 : LinkEnv :=
  { connectOk := true, sendOk := true, recvEvts := [.data []], stream := [],
    now := 50 }

/-- A link whose peer sends one byte that never parses as JSON and then
closes. -/
def envBad : LinkEnv :=
  { connectOk := true, sendOk := true, recvEvts := [.data [3]], stream := [],
    now := 50 }

/-- Claim C4.  The claim states that a peer closing before the response
parses as JSON always yields a failure value, including when zero bytes
were received.  Counterexample: on a zero-byte response the source skips
the decode entirely (line 123) and returns True - a success value, not a
failure. -/
theorem C4_counterexample :
    (sendCommand "10.0.0.1" 8080 .DEVICE_STATUS none none env4 loadsNone).result
        = .pyTrue ∧
      (sendCommand "10.0.0.1" 8080 .DEVICE_STATUS none none env4 loadsNone).closed
        = true :=
  ⟨rfl, rfl⟩

/-- Claim C4 (amended).  For a non-file command whose receive completes
with accumulated bytes: when at least one byte arrived and the bytes do
not parse as JSON the call returns the failure value False, but when zero
bytes arrived it returns the generic success True. -/
theorem C4_amended (ip : String) (port : Nat) (command : Command)
    (timestamp : Option ℚ) (fileId : Option String) (env : LinkEnv)
    (loads : List Nat → Option Json) (data : List Nat)
    (hg : command ≠ .GET_VIDEO) (hc : env.connectOk = true)
    (hs : env.sendOk = true)
    (hr : ctlRecv command loads env.recvEvts = some data) :
    (data ≠ [] → loads data = none →
      (sendCommand ip port command timestamp fileId env loads).result
        = .pyFalse) ∧
    (data = [] →
      (sendCommand ip port command timestamp fileId env loads).result
        = .pyTrue) := by
  constructor
  · intro hne hl
    simp [sendCommand, sendCommandCore, hc, hs, hg, hr, hne, hl]
  · intro he
    subst he
    simp [sendCommand, sendCommandCore, hc, hs, hg, hr]

/-- Witness for C4 (amended) at a one-byte unparseable response. -/
theorem C4_amended_witness :
    (sendCommand "10.0.0.1" 8080 .DEVICE_STATUS none none envBad loadsNone).result
      = .pyFalse :=
  (C4_amended "10.0.0.1" 8080 .DEVICE_STATUS none none envBad loadsNone [3]
    (by decide) rfl rfl rfl).1 (by decide) rfl

/-- A decode function parsing the single byte 7 to a small status
object. -/
def loadsOk : List Nat → Option Json :=
  fun b => if b = [7] then some (.obj [("ok", .bool true)]) else none

/-- A link whose peer sends the byte 7, which parses as JSON. -/
def envOkJson : LinkEnv :=
  { connectOk := true, sendOk := true, recvEvts := [.data [7]], stream := [],
    now := 50 }

/-- Claim C5.  The claim states that send_command closes its socket on
every exit path.  Counterexample: a successful JSON decode returns the
response at source line 135 before the close at line 137 is ever reached,
so the call returns with the socket still open. -/
theorem C5_counterexample :
    (sendCommand "10.0.0.1" 8080 .DEVICE_STATUS none none envOkJson loadsOk).result
        = .pyJson (.obj [("ok", .bool true)]) ∧
      (sendCommand "10.0.0.1" 8080 .DEVICE_STATUS none none envOkJson loadsOk).closed
        = false :=
  ⟨rfl, rfl⟩

/-- The file-download handler closes the socket exactly when the 4-byte
header-size read succeeds; the short-read return of source line 153 leaves
the socket open, every later path closes it (lines 201, 206). -/
theorem handleFileDownload_closed (loads : List Nat → Option Json)
    (ip : String) (stream : List Nat) :
    (handleFileDownload loads ip stream).closed = true ↔ 4 ≤ stream.length := by
  unfold handleFileDownload
  have hlt := List.length_take 4 stream
  by_cases h4 : (stream.take 4).length ≠ 4
  · rw [if_pos h4]
    simp only [Bool.false_eq_true, false_iff]
    omega
  · rw [if_neg h4]
    have hlen : 4 ≤ stream.length := by omega
    rcases hld : loads ((stream.drop 4).take (beU32 (stream.take 4))) with _ | info
    · simp [hld, hlen]
    · simp only [hld]
      split <;> simp [hlen]

/-- Claim C5 (amended).  Characterization of the socket state send_command
leaves behind: for non-file commands the socket is closed exactly on the
empty-response path; for GET_VIDEO it is closed exactly when connect, send
and the 4-byte header-size read all succeed.  Successful JSON decode,
decode failure and I/O error paths of non-file commands all return with
the socket open. -/
theorem C5_amended (ip : String) (port : Nat) (command : Command)
    (timestamp : Option ℚ) (fileId : Option String) (env : LinkEnv)
    (loads : List Nat → Option Json) :
    (command ≠ .GET_VIDEO →
      ((sendCommand ip port command timestamp fileId env loads).closed = true ↔
        env.connectOk = true ∧ env.sendOk = true ∧
          ctlRecv command loads env.recvEvts = some [])) ∧
    (command = .GET_VIDEO →
      ((sendCommand ip port command timestamp fileId env loads).closed = true ↔
        env.connectOk = true ∧ env.sendOk = true ∧ 4 ≤ env.stream.length)) := by
  constructor
  · intro h
    rcases hr : ctlRecv command loads env.recvEvts with _ | data
    · cases hco : env.connectOk <;> cases hse : env.sendOk <;>
        simp [sendCommand, sendCommandCore, hco, hse, h, hr]
    · rcases data with _ | ⟨b, bs⟩
      · cases hco : env.connectOk <;> cases hse : env.sendOk <;>
          simp [sendCommand, sendCommandCore, hco, hse, h, hr]
      · rcases hl : loads (b :: bs) with _ | j
        · cases hco : env.connectOk <;> cases hse : env.sendOk <;>
            simp [sendCommand, sendCommandCore, hco, hse, h, hr, hl]
        · rcases hfid : (if command = .STOP_RECORDING then j.get "fileId" else none)
            with _ | v
          · cases hco : env.connectOk <;> cases hse : env.sendOk <;>
              simp [sendCommand, sendCommandCore, hco, hse, h, hr, hl, hfid]
          · cases htr : v.truthy <;>
              cases hco : env.connectOk <;> cases hse : env.sendOk <;>
                simp [sendCommand, sendCommandCore, hco, hse, h, hr, hl, hfid, htr]
  · intro h
    subst h
    cases hco : env.connectOk <;> cases hse : env.sendOk <;>
      simp [sendCommand, sendCommandCore, hco, hse, handleFileDownload_closed]

/-- Witness for C5 (amended): the empty-response path of a DEVICE_STATUS
call does close the socket. -/
theorem C5_amended_witness :
    (sendCommand "10.0.0.1" 8080 .DEVICE_STATUS none none env4 loadsNone).closed
      = true :=
  ((C5_amended "10.0.0.1" 8080 .DEVICE_STATUS none none env4 loadsNone).1
    (by decide)).mpr ⟨rfl, rfl, rfl⟩

/-- A decode function parsing the single byte 5 to a response whose fileId
is the empty string. -/
def loadsEmptyFid : List Nat → Option Json :=
  fun b => if b = [5] then some (.obj [("fileId", .str "")]) else none

/-- A link whose peer sends the byte 5. -/
def envEmptyFid : LinkEnv :=
  { connectOk := true, sendOk := true, recvEvts := [.data [5]], stream := [],
    now := 50 }

/-- Claim C6.  The claim states that in a STOP_RECORDING dispatch a device
whose response has an empty or absent fileId keeps its raw response object
as its value in the result mapping.  Counterexample: the device link does
return the raw response, but the broadcast filters non-string results out
(source line 248), so the returned mapping holds no entry at all for that
device. -/
theorem C6_counterexample :
    sendCommandToAll [("cam1", dev1)] .STOP_RECORDING none 3 100
        (fun _ => envEmptyFid) loadsEmptyFid = some [] ∧
      (dispatchAll [("cam1", dev1)] .STOP_RECORDING none 3 100
          (fun _ => envEmptyFid) loadsEmptyFid).map (fun p => (p.1, p.2.result))
        = [("cam1", .pyJson (.obj [("fileId", .str "")]))] :=
  ⟨rfl, rfl⟩

/-- Claim C6 (amended).  Per device link of a STOP_RECORDING dispatch: a
response whose fileId is a non-empty string is unwrapped to that string (a
value the broadcast keeps); a response with absent or non-truthy fileId
makes the link return the raw response object (a value the broadcast then
omits from the returned mapping, as the counterexample shows). -/
theorem C6_amended (ip : String) (port : Nat) (timestamp : Option ℚ)
    (fileId : Option String) (env : LinkEnv)
    (loads : List Nat → Option Json) (b : List Nat) (j : Json) (s : String)
    (v : Json) (hc : env.connectOk = true) (hs : env.sendOk = true)
    (hb : recv1 env.recvEvts = some b) (hbne : b ≠ [])
    (hl : loads b = some j) :
    (j.get "fileId" = some (.str s) → s ≠ "" →
      (sendCommand ip port .STOP_RECORDING timestamp fileId env loads).result
        = .pyStr s) ∧
    (j.get "fileId" = none →
      (sendCommand ip port .STOP_RECORDING timestamp fileId env loads).result
        = pyOfJson j) ∧
    (j.get "fileId" = some v → v.truthy = false →
      (sendCommand ip port .STOP_RECORDING timestamp fileId env loads).result
        = pyOfJson j) := by
  refine ⟨fun h1 h2 => ?_, fun h1 => ?_, fun h1 h2 => ?_⟩
  · simp [sendCommand, sendCommandCore, ctlRecv, hc, hs, hb, hbne, hl, h1,
      Json.truthy, pyOfJson, h2]
  · simp [sendCommand, sendCommandCore, ctlRecv, hc, hs, hb, hbne, hl, h1]
  · simp [sendCommand, sendCommandCore, ctlRecv, hc, hs, hb, hbne, hl, h1, h2]

/-- A decode function parsing the single byte 6 to a response carrying the
file identifier abc123. -/
def loadsAbc : List Nat → Option Json :=
  fun b => if b = [6] then some (.obj [("fileId", .str "abc123")]) else none

/-- A link whose peer sends the byte 6. -/
def envAbc : LinkEnv :=
  { connectOk := true, sendOk := true, recvEvts := [.data [6]], stream := [],
    now := 50 }

/-- Witness for C6 (amended): a STOP_RECORDING response with fileId
abc123 is unwrapped to the bare string. -/
theorem C6_amended_witness :
    (sendCommand "10.0.0.1" 8080 .STOP_RECORDING none none envAbc loadsAbc).result
      = .pyStr "abc123" :=
  (C6_amended "10.0.0.1" 8080 none none envAbc loadsAbc [6]
    (.obj [("fileId", .str "abc123")]) "abc123" .null rfl rfl rfl (by decide)
    rfl).1 rfl (by decide)

/-- A decode function parsing the single byte 8 to a response carrying the
file identifier f1. -/
def loadsStop : List Nat → Option Json :=
  fun b => if b = [8] then some (.obj [("fileId", .str "f1")]) else none

/-- A link whose peer sends the byte 8. -/
def envStopOk : LinkEnv :=
  { connectOk := true, sendOk := true, recvEvts := [.data [8]], stream := [],
    now := 50 }

/-- Link environments for a two-device fleet where device a is
unreachable. -/
def envsC7 : String → LinkEnv := fun n => if n = "a" then envFail else envStopOk

/-- Claim C7.  The claim states that a failing device link is always
recorded as that device entry in the returned mapping.  Counterexample:
in a STOP_RECORDING broadcast to devices a (unreachable) and b (normal),
the returned mapping holds only the entry for b - the captured failure of
a was dropped by the string filter of source line 248, not recorded. -/
theorem C7_counterexample :
    sendCommandToAll [("a", dev1), ("b", dev2)] .STOP_RECORDING none 3 100
      envsC7 loadsStop = some [("b", .pyStr "f1")] :=
  rfl

/-- Claim C7 (amended).  For every broadcast of a non-STOP_RECORDING
command, every targeted device has exactly its own entry in the returned
mapping, computed from its own link environment alone (so one device
failure never removes or perturbs another entry and nothing escapes as an
exception), and a device whose connect fails carries the captured failure
value False. -/
theorem C7_amended (devices : List (String × Device)) (command : Command)
    (timestamp : Option ℚ) (syncDelay now : ℚ) (envs : String → LinkEnv)
    (loads : List Nat → Option Json) (i : Nat) (hi : i < devices.length)
    (hcmd : command ≠ .STOP_RECORDING) :
    ∃ rs, sendCommandToAll devices command timestamp syncDelay now envs loads
        = some rs ∧
      rs[i]? = some ((devices.get ⟨i, hi⟩).1,
        (sendCommand (devices.get ⟨i, hi⟩).2.ip (devices.get ⟨i, hi⟩).2.port
          command (some (syncTimestamp command timestamp syncDelay now)) none
          (envs (devices.get ⟨i, hi⟩).1) loads).result) ∧
      ((envs (devices.get ⟨i, hi⟩).1).connectOk = false →
        (sendCommand (devices.get ⟨i, hi⟩).2.ip (devices.get ⟨i, hi⟩).2.port
          command (some (syncTimestamp command timestamp syncDelay now)) none
          (envs (devices.get ⟨i, hi⟩).1) loads).result = .pyFalse) := by
  have hne : devices ≠ [] := by
    intro h0
    subst h0
    simp at hi
  refine ⟨(dispatchAll devices command timestamp syncDelay now envs loads).map
    (fun p => (p.1, p.2.result)), ?_, ?_, ?_⟩
  · simp [sendCommandToAll, hne, hcmd]
  · simp [dispatchAll, List.map_map, List.getElem?_map,
      List.getElem?_eq_getElem hi]
  · intro hfail
    simp only [List.get_eq_getElem] at hfail
    simp [sendCommand, sendCommandCore, hfail]

/-- The three-device fleet of the C7 witness. -/
def devsW7 : List (String × Device) := [("a", dev1), ("b", dev2), ("c", dev3)]

/-- Link environments for the C7 witness: device a unreachable, the others
responding normally. -/
def envsW7 : String → LinkEnv := fun n => if n = "a" then envFail else envOkJson

/-- Witness for C7 (amended): in a three-device DEVICE_STATUS broadcast
with device a unreachable, the call still returns a mapping and the entry
of device a is the captured failure value False. -/
theorem C7_amended_witness :
    ∃ rs, sendCommandToAll devsW7 .DEVICE_STATUS none 3 100 envsW7 loadsOk
        = some rs ∧
      rs[0]? = some ("a", PyVal.pyFalse) := by
  obtain ⟨rs, h1, h2, h3⟩ := C7_amended devsW7 .DEVICE_STATUS none 3 100
    envsW7 loadsOk 0 (by decide) (by decide)
  exact ⟨rs, h1, h2.trans rfl⟩

/-- The aggregation fold tracks as its first component the running maximum
absolute diff over success records and as its last component the running
count of success records. -/
theorem foldStats_spec (rs : List ProbeRecord) :
    ∀ (mx mn : ℚ) (v : Nat),
      (rs.foldl statsStep (mx, mn, v)).1
          = rs.foldl
              (fun m r => match r with | .success _ _ d => max m |d| | _ => m)
              mx ∧
        (rs.foldl statsStep (mx, mn, v)).2.2 = v + succCount rs := by
  induction rs with
  | nil =>
    intro mx mn v
    simp [succCount]
  | cons r t ih =>
    intro mx mn v
    cases r with
    | success a b d =>
      obtain ⟨h1, h2⟩ := ih (max mx |d|) (if v = 0 then |d| else min mn |d|)
        (v + 1)
      refine ⟨by simpa [statsStep] using h1, ?_⟩
      simp only [List.foldl_cons, statsStep]
      rw [h2]
      simp [succCount, List.countP_cons]
      omega
    | failed =>
      obtain ⟨h1, h2⟩ := ih mx mn v
      refine ⟨by simpa [statsStep] using h1, ?_⟩
      simp only [List.foldl_cons, statsStep]
      rw [h2]
      simp [succCount, List.countP_cons]
    | error =>
      obtain ⟨h1, h2⟩ := ih mx mn v
      refine ⟨by simpa [statsStep] using h1, ?_⟩
      simp only [List.foldl_cons, statsStep]
      rw [h2]
      simp [succCount, List.countP_cons]

/-- The probe records of the C8 counterexample: two successes with
absolute diffs 10 ms and exactly 200 ms. -/
def rsC8 : List ProbeRecord := [.success 0 0 10, .success 0 0 200]

/-- Claim C8.  The claim reserves the poor classification for maximum
diffs strictly above 200 ms, the 50 to 200 band being moderate.
Counterexample: with diffs 10 ms and exactly 200 ms the code classifies
the fleet poor (since its band test is max_diff < 200, source line 525),
while the claim bands 200 ms as moderate. -/
theorem C8_counterexample :
    classify rsC8 = "poor" ∧ classifyClaimC8 rsC8 = "moderate" ∧
      maxAbsDiff rsC8 = 200 := by
  refine ⟨by decide, by decide, by decide⟩

/-- Claim C8 (amended).  The fleet classification is good exactly when the
maximum absolute clock diff is below 50 ms, moderate on the half-open band
from 50 ms up to but excluding 200 ms, and poor from 200 ms upward; with
exactly one successfully probed device the report is insufficient data and
with none it is no response. -/
theorem C8_amended (rs : List ProbeRecord) :
    classify rs = classifySpecAmended rs := by
  obtain ⟨h1, h2⟩ := foldStats_spec rs 0 0 0
  have hm : (foldStats rs).1 = maxAbsDiff rs := h1
  have hv : (foldStats rs).2.2 = succCount rs := h2.trans (Nat.zero_add _)
  unfold classify classifySpecAmended
  rw [hm, hv]

/-- Claim C9.  For every successfully probed device the estimator computes
rtt = t1 - t0 and clockDiffMs = (td + rtt / 2 - t1) * 1000 (source lines
465-474); in particular td = 100, t0 = 100, t1 = 100.040 yields
clockDiffMs = -20 (and a 40 ms round trip). -/
theorem C9_clock_formula :
    (∀ td t0 t1 : ℚ,
      probeDevice (.pyJson (.obj [("timestamp", .num td)])) t0 t1
        = .success td ((t1 - t0) * 1000) ((td + (t1 - t0) / 2 - t1) * 1000)) ∧
      probeDevice (.pyJson (.obj [("timestamp", .num 100)])) 100 (2501 / 25)
        = .success 100 40 (-20) := by
  refine ⟨fun td t0 t1 => rfl, by norm_num [probeDevice, List.lookup]⟩

/-- Claim C10.  A caller-supplied timestamp equal to the falsy 0 is not
honored: the encoded request carries the current time instead (source line
71); likewise a file_id equal to the empty string is omitted from the
encoded request (source line 75). -/
theorem C10_falsy_timestamp_fileId (ip : String) (port : Nat)
    (command : Command) (timestamp : Option ℚ) (fileId : Option String)
    (env : LinkEnv) (loads : List Nat → Option Json) :
    (sendCommand ip port command (some 0) fileId env loads).msg.timestamp
        = env.now ∧
      (sendCommand ip port command timestamp (some "") env loads).msg.fileId
        = none := by
  constructor <;> simp [sendCommand, buildMessage]

end MultiCam
